import Mathlib

/-!
# Verification of the generation/session coordinator of `ollama-chat-tauri`

Shallow embedding of the Rust sources under `src/apps/desktop/src-tauri/src/`
(the modular implementation: `session.rs`, `db.rs`, `commands.rs`,
`ollama_api.rs`).  External HTTP effects (the title-generation call and the
chat-generation stream) are parameters of the model (`GenEnv`); the SQLite
store is modelled as an in-memory database value; the `tokio::select!` races
are modelled by explicit schedule parameters (`cancelPoint`, `outerWins`),
since `tokio::select!` polls its ready branches in unspecified order.
-/

namespace OllamaChat

/-- `GenerationState` from `session.rs`.  The `CancellationToken` is modelled
as a unit value: only its presence/absence and the cancellation schedule
(part of `GenEnv`) matter to the claims. -/
structure GenerationState where
  is_running : Bool
  current_session_id : Option Int
  cancellation_token : Option Unit
deriving Repr, DecidableEq

/-- `GenerationState::default()` from `session.rs`. -/
def GenerationState.default : GenerationState :=
  { is_running := false
    current_session_id := some (-1)
    cancellation_token := none }

/-- A row of the `chat_sessions` table (`id INTEGER PRIMARY KEY AUTOINCREMENT`,
`title TEXT NOT NULL`; the `created_at` column is assigned by SQLite and is
not consulted by any code under verification). -/
structure ChatSessionRow where
  id : Int
  title : String
deriving Repr, DecidableEq

/-- A row of the `chat_history` table (`id`, `session_id`, `role`, `message`;
the `timestamp` column is assigned by SQLite and not consulted by the code
under verification — row order, which SQLite reproduces via `ORDER BY id ASC`,
is the list order here). -/
structure ChatMessageRow where
  id : Int
  session_id : Int
  role : String
  message : String
deriving Repr, DecidableEq

/-- The SQLite database state: the two tables touched by the coordinator,
plus the AUTOINCREMENT counters (SQLite AUTOINCREMENT never reuses ids,
even after deletes). -/
structure DB where
  sessions : List ChatSessionRow
  history : List ChatMessageRow
  nextSessionId : Int
  nextMessageId : Int
deriving Repr, DecidableEq

/-- A fresh database as created by `init_db` (empty tables; SQLite rowids
start at 1). -/
def DB.empty : DB :=
  { sessions := [], history := [], nextSessionId := 1, nextMessageId := 1 }

/-- `CurrentSession` from `db.rs`. -/
structure CurrentSession where
  id : Int
  title : String
deriving Repr, DecidableEq

/-- `db::get_or_create_session`: look the title up with
`SELECT id FROM chat_sessions WHERE title = ?1` (`query_row` returns the
first matching row in rowid order); if present return its id, otherwise
insert a new row and return `last_insert_rowid()`. -/
def get_or_create_session (db : DB) (title : String) : Int × DB :=
  match db.sessions.find? (fun r => r.title == title) with
  | some r => (r.id, db)
  | none =>
      let id := db.nextSessionId
      (id, { db with
               sessions := db.sessions ++ [{ id := id, title := title }]
               nextSessionId := id + 1 })

/-- `db::save_chat_message`: reject `session_id <= 0` with an error and write
nothing; otherwise append the row to `chat_history`. -/
def save_chat_message (session_id : Int) (role message : String) (db : DB) :
    Except String DB :=
  if session_id ≤ 0 then
    .error "No active chat session found."
  else
    .ok { db with
            history := db.history ++
              [{ id := db.nextMessageId, session_id := session_id,
                 role := role, message := message }]
            nextMessageId := db.nextMessageId + 1 }

/-- `db::fetch_chat_history`: all rows of `chat_history` with the given
session id, in insertion (`ORDER BY id ASC`) order. -/
def fetch_chat_history (session_id : Int) (db : DB) : List ChatMessageRow :=
  db.history.filter (fun m => m.session_id == session_id)

/-- `db::remove_chat_session` on the database: `DELETE FROM chat_sessions
WHERE id = ?1`. -/
def DB.deleteSession (db : DB) (session_id : Int) : DB :=
  { db with sessions := db.sessions.filter (fun r => !(r.id == session_id)) }

/-- The whole mutable application state: the lock-guarded `GenerationState`
and the lock-guarded SQLite connection. -/
structure AppState where
  gs : GenerationState
  db : DB
deriving Repr, DecidableEq

/-- One chunk of the chat-generation byte stream, as the consumption loop in
`process_chat_generation` sees it: a stream read error (`chunk.map_err(..)?`),
a line that fails `serde_json::from_str` (skipped silently), or a parsed JSON
fragment with an optional `message.content` string and the `done` flag. -/
inductive Chunk where
  | err (msg : String)
  | malformed
  | data (content : Option String) (done : Bool)
deriving Repr, DecidableEq

/-- The environment of one `generate_chat` call: the outcomes of the external
HTTP effects and the schedule of the cancellation races.

* `titleResult` — result of `generate_session_title_with_ai` (an external
  HTTP round trip followed by pure post-processing; its value is the final
  `"model: title"` string).
* `apiResult` — result of the `POST /api/chat` send plus status check:
  an error string, or the stream of chunks.
* `cancelPoint` — `some k` if `abort_generation` fires the cancellation
  token while the call is in flight, after the consumption loop has consumed
  `k` chunks (`k = 0`: before any chunk, possibly while the send is pending);
  `none` if no cancellation fires before the loop finishes.
* `outerWins` — `tokio::select!` polls ready branches in unspecified order;
  when the cancellation fires, both the outer `cancelled()` branch and the
  inner loop (through its own `cancelled()` branch) are ready.  `true` means
  the outer branch is taken (the inner future is dropped, no marker is
  appended); `false` means the inner loop's cancellation branch is taken
  (the `"\n\nCancelled\n"` marker is appended). -/
structure GenEnv where
  titleResult : Except String String
  apiResult : Except String (List Chunk)
  cancelPoint : Option Nat
  outerWins : Bool
deriving Repr

/-- The cancellation marker appended by the inner loop's cancellation
branch (`ai_response.push_str("\n\nCancelled\n")`). -/
def cancelMarker : String := "\n\nCancelled\n"

/-- The stream-consumption loop of `process_chat_generation` with no
cancellation: return the accumulated `ai_response`, the loop's
`Result<(), String>`, and the number of chunks consumed before it stopped
(`done` flag, end of stream, or chunk read error). -/
def streamRun : String → List Chunk → String × Except String Unit × Nat
  | acc, [] => (acc, .ok (), 0)
  | acc, c :: rest =>
    match c with
    | .err e => (acc, .error e, 1)
    | .malformed =>
        let r := streamRun acc rest
        (r.1, r.2.1, r.2.2 + 1)
    | .data content done =>
        let acc2 := acc ++ content.getD ""
        if done then (acc2, .ok (), 1)
        else
          let r := streamRun acc2 rest
          (r.1, r.2.1, r.2.2 + 1)

/-- The `tokio::select!` race of `process_chat_generation`: the request/
stream-consumption block raced against `cancellation_token.cancelled()`.
Returns the final value of `ai_response` and `generation_result`.

If no cancellation fires, or the loop terminates on its own within
`cancelPoint` chunks, the plain loop result stands.  Otherwise the race is
decided by `outerWins`: the outer branch drops the inner future, leaving
`ai_response` as accumulated so far and `generation_result = Ok(())`; the
inner branch appends the cancellation marker and also yields `Ok(())`. -/
def runChatStream (env : GenEnv) : String × Except String Unit :=
  match env.apiResult with
  | .error e =>
      match env.cancelPoint with
      | some _ => if env.outerWins then ("", .ok ()) else ("", .error e)
      | none => ("", .error e)
  | .ok chunks =>
      let full := streamRun "" chunks
      match env.cancelPoint with
      | none => (full.1, full.2.1)
      | some k =>
          if full.2.2 ≤ k then (full.1, full.2.1)
          else
            let acc := (streamRun "" (chunks.take k)).1
            if env.outerWins then (acc, .ok ())
            else (acc ++ cancelMarker, .ok ())

/-- The opening block of `process_chat_generation`: set `is_running = true`
and install a fresh cancellation token. -/
def startGeneration (gs : GenerationState) : GenerationState :=
  { gs with is_running := true, cancellation_token := some () }

/-- The session-resolution step of `process_chat_generation` (inside the
first lock scope): when the current session is absent or the sentinel `-1`,
generate a title (external call), get-or-create the session, and adopt its
id; otherwise leave state and database untouched. -/
def resolveSession (env : GenEnv) (gs : GenerationState) (db : DB) :
    Except String (GenerationState × DB) :=
  if gs.current_session_id = none ∨ gs.current_session_id = some (-1) then
    match env.titleResult with
    | .error e => .error ("Failed to generate session title: " ++ e)
    | .ok title =>
        let r := get_or_create_session db title
        .ok ({ gs with current_session_id := some r.1 }, r.2)
  else
    .ok (gs, db)

/-- A persistence event of one `generate_chat` call, in the order the call
performed it. -/
inductive PersistEvent where
  | saveUser (session_id : Int) (message : String)
  | saveAssistant (session_id : Int) (message : String)
deriving Repr, DecidableEq

/-- The outcome of one `generate_chat` call: its returned
`Result<String, String>`, the application state at the moment it returns,
and the trace of chat-history writes it performed. -/
structure GenOutcome where
  result : Except String String
  state : AppState
  events : List PersistEvent
deriving Repr

/-- `ollama_api::process_chat_generation` (the body of the `generate_chat`
command).  The `?` early returns of the Rust code return without running the
final reset block; the model returns the state exactly as it is at that
point.  The `load_chat_history` context read and the HTTP request body only
feed the external endpoint and are absorbed into `env.apiResult`. -/
def process_chat_generation (env : GenEnv) (prompt : String) (s : AppState) :
    GenOutcome :=
  let gs1 := startGeneration s.gs
  match resolveSession env gs1 s.db with
  | .error e =>
      { result := .error e, state := { gs := gs1, db := s.db }, events := [] }
  | .ok (gs2, db1) =>
      let session_id := gs2.current_session_id.getD (-1)
      match save_chat_message session_id "user" prompt db1 with
      | .error e =>
          { result := .error ("Failed to save user message: " ++ e)
            state := { gs := gs2, db := db1 }
            events := [] }
      | .ok db2 =>
          let run := runChatStream env
          match save_chat_message session_id "assistant" run.1 db2 with
          | .error e =>
              { result := .error ("Failed to save assistant message: " ++ e)
                state := { gs := gs2, db := db2 }
                events := [.saveUser session_id prompt] }
          | .ok db3 =>
              let gs3 := { gs2 with is_running := false,
                                    cancellation_token := none }
              { result :=
                  match run.2 with
                  | .ok _ => .ok run.1
                  | .error e => .error e
                state := { gs := gs3, db := db3 }
                events := [.saveUser session_id prompt,
                           .saveAssistant session_id run.1] }

/-- `commands::abort_generation`: signal the token if present (a no-op on the
quiescent state modelled here — the in-flight effect is `GenEnv.cancelPoint`),
then always clear `is_running` and the token.  Always returns `Ok(())`. -/
def abort_generation (gs : GenerationState) :
    Except String Unit × GenerationState :=
  (.ok (), { gs with is_running := false, cancellation_token := none })

/-- `commands::clear_current_session`. -/
def clear_current_session (gs : GenerationState) : GenerationState :=
  { gs with current_session_id := some (-1) }

/-- `commands::set_current_session`. -/
def set_current_session (session_id : Int) (gs : GenerationState) :
    GenerationState :=
  { gs with current_session_id := some session_id }

/-- `db::remove_chat_session` (the body of the `delete_chat_session`
command): delete the row, then reset `current_session_id` to the sentinel
iff it equals the deleted id. -/
def remove_chat_session (session_id : Int) (s : AppState) : AppState :=
  let db := s.db.deleteSession session_id
  let gs :=
    if s.gs.current_session_id = some session_id then
      { s.gs with current_session_id := some (-1) }
    else s.gs
  { gs := gs, db := db }

/-- `commands::load_chat_history`: read the current session id
(`unwrap_or(-1)`), fetch that session's rows (the JSON projection of the
rows is dropped: it is a per-row reshaping). -/
def load_chat_history (s : AppState) : Except String (List ChatMessageRow) :=
  let session_id := s.gs.current_session_id.getD (-1)
  .ok (fetch_chat_history session_id s.db)

/-- `db::fetch_current_session` (the body of the `get_current_session`
command): for a present, non-sentinel id, look the title up and default it
to the empty string when the row is missing; otherwise return the
sentinel/empty pair. -/
def fetch_current_session (s : AppState) : Except String CurrentSession :=
  match s.gs.current_session_id with
  | some id =>
      if id ≠ -1 then
        let title := (s.db.sessions.find? (fun r => r.id == id)).map
          (fun r => r.title)
        .ok { id := id, title := title.getD "" }
      else .ok { id := -1, title := "" }
  | none => .ok { id := -1, title := "" }

/-- The application state at startup: `GenerationState::default()` and the
fresh database of `init_db`. -/
def initState : AppState := { gs := GenerationState.default, db := DB.empty }

/-- States reachable by any sequence of the exposed state-changing commands,
with arbitrary external environments for each `generate_chat` call. -/
inductive Reachable : AppState → Prop where
  | init : Reachable initState
  | generate {s} (env : GenEnv) (prompt : String) :
      Reachable s → Reachable (process_chat_generation env prompt s).state
  | abort {s} : Reachable s →
      Reachable { gs := (abort_generation s.gs).2, db := s.db }
  | setCur {s} (session_id : Int) : Reachable s →
      Reachable { gs := set_current_session session_id s.gs, db := s.db }
  | clearCur {s} : Reachable s →
      Reachable { gs := clear_current_session s.gs, db := s.db }
  | deleteSession {s} (session_id : Int) : Reachable s →
      Reachable (remove_chat_session session_id s)

/-- A `generate_chat` environment/state pair whose call reaches the final
reset block: session resolution succeeds and the resolved id is positive,
so both chat-history writes succeed and no `?` early return fires. -/
def noEarlyExit (env : GenEnv) (s : AppState) : Prop :=
  ∃ gs2 db1, resolveSession env (startGeneration s.gs) s.db = .ok (gs2, db1) ∧
    1 ≤ gs2.current_session_id.getD (-1)

/-- States reachable by command sequences in which every `generate_chat`
call reaches its final reset block (no early error return). -/
inductive ReachableClean : AppState → Prop where
  | init : ReachableClean initState
  | generate {s} (env : GenEnv) (prompt : String) :
      ReachableClean s → noEarlyExit env s →
      ReachableClean (process_chat_generation env prompt s).state
  | abort {s} : ReachableClean s →
      ReachableClean { gs := (abort_generation s.gs).2, db := s.db }
  | setCur {s} (session_id : Int) : ReachableClean s →
      ReachableClean { gs := set_current_session session_id s.gs, db := s.db }
  | clearCur {s} : ReachableClean s →
      ReachableClean { gs := clear_current_session s.gs, db := s.db }
  | deleteSession {s} (session_id : Int) : ReachableClean s →
      ReachableClean (remove_chat_session session_id s)

/-! ## Helper lemmas -/

/-- A successful `save_chat_message` presupposes a positive session id and
appends exactly one row. -/
theorem save_chat_message_ok {sid : Int} {role msg : String} {db db' : DB}
    (h : save_chat_message sid role msg db = .ok db') :
    0 < sid ∧
    db'.history = db.history ++
      [{ id := db.nextMessageId, session_id := sid,
         role := role, message := msg }] ∧
    db'.sessions = db.sessions := by
  unfold save_chat_message at h
  split at h
  · exact absurd h (by simp)
  · next hle =>
      simp only [Except.ok.injEq] at h
      subst h
      exact ⟨by omega, rfl, rfl⟩

/-- `get_or_create_session` never touches `chat_history`. -/
theorem get_or_create_session_history (db : DB) (title : String) :
    (get_or_create_session db title).2.history = db.history := by
  unfold get_or_create_session
  split <;> rfl

/-- Case analysis on a successful session resolution: either the current
session was valid and nothing changed, or the title call succeeded and the
session id was adopted from `get_or_create_session`. -/
theorem resolveSession_ok {env : GenEnv} {gs : GenerationState} {db : DB}
    {gs2 : GenerationState} {db1 : DB}
    (h : resolveSession env gs db = .ok (gs2, db1)) :
    (gs2 = gs ∧ db1 = db) ∨
    ∃ title, env.titleResult = .ok title ∧
      gs2 = { gs with
                current_session_id := some (get_or_create_session db title).1 } ∧
      db1 = (get_or_create_session db title).2 := by
  unfold resolveSession at h
  split at h
  · cases ht : env.titleResult with
    | error e => rw [ht] at h; exact absurd h (by simp)
    | ok t =>
        rw [ht] at h
        simp only [Except.ok.injEq, Prod.mk.injEq] at h
        exact Or.inr ⟨t, rfl, h.1.symm, h.2.symm⟩
  · simp only [Except.ok.injEq, Prod.mk.injEq] at h
    exact Or.inl ⟨h.1.symm, h.2.symm⟩

/-- Session resolution keeps the run flags and never removes the session id;
it also never touches the history table. -/
theorem resolveSession_ok_fields {env : GenEnv} {gs : GenerationState}
    {db : DB} {gs2 : GenerationState} {db1 : DB}
    (h : resolveSession env gs db = .ok (gs2, db1)) :
    gs2.is_running = gs.is_running ∧
    gs2.cancellation_token = gs.cancellation_token ∧
    (gs2.current_session_id = gs.current_session_id ∨
      ∃ id, gs2.current_session_id = some id) ∧
    db1.history = db.history := by
  rcases resolveSession_ok h with ⟨hgs, hdb⟩ | ⟨t, _, hgs, hdb⟩
  · subst hgs; subst hdb
    exact ⟨rfl, rfl, Or.inl rfl, rfl⟩
  · subst hgs; subst hdb
    exact ⟨rfl, rfl, Or.inr ⟨_, rfl⟩, get_or_create_session_history db t⟩

/-- When session resolution succeeds with a positive resolved id, the call
runs to completion: both history writes succeed and the whole outcome is the
one of the final branch of `process_chat_generation`. -/
theorem process_complete {env : GenEnv} {prompt : String} {s : AppState}
    {gs2 : GenerationState} {db1 : DB}
    (h1 : resolveSession env (startGeneration s.gs) s.db = .ok (gs2, db1))
    (h2 : 1 ≤ gs2.current_session_id.getD (-1)) :
    process_chat_generation env prompt s =
      { result :=
          match (runChatStream env).2 with
          | .ok _ => .ok (runChatStream env).1
          | .error e => .error e
        state :=
          { gs := { gs2 with is_running := false, cancellation_token := none }
            db := { db1 with
                      history := db1.history ++
                        [{ id := db1.nextMessageId,
                           session_id := gs2.current_session_id.getD (-1),
                           role := "user", message := prompt },
                         { id := db1.nextMessageId + 1,
                           session_id := gs2.current_session_id.getD (-1),
                           role := "assistant",
                           message := (runChatStream env).1 }]
                      nextMessageId := db1.nextMessageId + 1 + 1 } }
        events := [.saveUser (gs2.current_session_id.getD (-1)) prompt,
                   .saveAssistant (gs2.current_session_id.getD (-1))
                     (runChatStream env).1] } := by
  have hpos : ¬ (gs2.current_session_id.getD (-1) ≤ 0) := by omega
  simp only [process_chat_generation, h1, save_chat_message, if_neg hpos,
    List.append_assoc, List.singleton_append]

/-- When session resolution succeeds with a positive resolved id, the final
state has the run flag cleared and the token absent. -/
theorem process_resets {env : GenEnv} {prompt : String} {s : AppState}
    {gs2 : GenerationState} {db1 : DB}
    (h1 : resolveSession env (startGeneration s.gs) s.db = .ok (gs2, db1))
    (h2 : 1 ≤ gs2.current_session_id.getD (-1)) :
    (process_chat_generation env prompt s).state.gs.is_running = false ∧
    (process_chat_generation env prompt s).state.gs.cancellation_token =
      none := by
  rw [process_complete h1 h2]
  exact ⟨rfl, rfl⟩

/-- Exhaustive case analysis of a `generate_chat` call: it exits early on a
session-resolution failure, exits early because the resolved session id is
non-positive (both history writes share that id, so the user-message write is
the one that fails), or runs to completion. -/
theorem process_cases (env : GenEnv) (prompt : String) (s : AppState) :
    (∃ e, process_chat_generation env prompt s =
        { result := .error e,
          state := { gs := startGeneration s.gs, db := s.db },
          events := [] }) ∨
    ∃ gs2 db1,
      resolveSession env (startGeneration s.gs) s.db = .ok (gs2, db1) ∧
      ((gs2.current_session_id.getD (-1) ≤ 0 ∧
        ∃ e, process_chat_generation env prompt s =
          { result := .error e, state := { gs := gs2, db := db1 },
            events := [] }) ∨
       1 ≤ gs2.current_session_id.getD (-1)) := by
  cases hres : resolveSession env (startGeneration s.gs) s.db with
  | error e =>
      exact Or.inl ⟨e, by simp only [process_chat_generation, hres]⟩
  | ok p =>
      obtain ⟨gs2, db1⟩ := p
      refine Or.inr ⟨gs2, db1, rfl, ?_⟩
      by_cases hsid : gs2.current_session_id.getD (-1) ≤ 0
      · exact Or.inl ⟨hsid,
          "Failed to save user message: " ++ "No active chat session found.",
          by simp only [process_chat_generation, hres, save_chat_message,
                if_pos hsid]⟩
      · exact Or.inr (by omega)

/-- A `generate_chat` call never erases the current-session pointer: if it is
present before the call it is present after it. -/
theorem process_session_ne_none {env : GenEnv} {prompt : String}
    {s : AppState} (h : s.gs.current_session_id ≠ none) :
    (process_chat_generation env prompt s).state.gs.current_session_id ≠
      none := by
  rcases process_cases env prompt s with ⟨e, heq⟩ | ⟨gs2, db1, hres, hrest⟩
  · rw [heq]; exact h
  · have hgs2 : gs2.current_session_id ≠ none := by
      rcases (resolveSession_ok_fields hres).2.2.1 with heq2 | ⟨id, heq2⟩
      · rw [heq2]; exact h
      · rw [heq2]; simp
    rcases hrest with ⟨hsid, e, heq⟩ | hsid
    · rw [heq]; exact hgs2
    · rw [process_complete hres hsid]; exact hgs2

/-- Every row a `generate_chat` call adds to `chat_history` carries a
positive session id. -/
theorem process_history_mem {env : GenEnv} {prompt : String} {s : AppState}
    {m : ChatMessageRow}
    (h : m ∈ (process_chat_generation env prompt s).state.db.history) :
    m ∈ s.db.history ∨ 1 ≤ m.session_id := by
  rcases process_cases env prompt s with ⟨e, heq⟩ | ⟨gs2, db1, hres, hrest⟩
  · rw [heq] at h; exact Or.inl h
  · have hdb1 : db1.history = s.db.history :=
      (resolveSession_ok_fields hres).2.2.2
    rcases hrest with ⟨hsid, e, heq⟩ | hsid
    · rw [heq] at h
      exact Or.inl (hdb1 ▸ h)
    · rw [process_complete hres hsid] at h
      simp only [List.mem_append, List.mem_cons,
        List.mem_singleton, List.not_mem_nil, or_false] at h
      rcases h with h | h | h
      · exact Or.inl (hdb1 ▸ h)
      · subst h; exact Or.inr hsid
      · subst h; exact Or.inr hsid

/-- In every reachable state, every stored chat message carries a positive
session id (`save_chat_message` rejects non-positive ids). -/
theorem reachable_history_pos {s : AppState} (h : Reachable s) :
    ∀ m ∈ s.db.history, 1 ≤ m.session_id := by
  induction h with
  | init => intro m hm; exact absurd hm (List.not_mem_nil m)
  | generate env prompt hs ih =>
      intro m hm
      rcases process_history_mem hm with hm | hm
      · exact ih m hm
      · exact hm
  | abort hs ih => exact ih
  | setCur sid hs ih => exact ih
  | clearCur hs ih => exact ih
  | deleteSession sid hs ih => exact ih

/-- On traces where every `generate_chat` call reaches its reset block, the
run flag is down in every reachable state. -/
theorem reachableClean_not_running {s : AppState} (h : ReachableClean s) :
    s.gs.is_running = false := by
  induction h with
  | init => rfl
  | generate env prompt hs hne ih =>
      obtain ⟨gs2, db1, h1, h2⟩ := hne
      exact (process_resets h1 h2).1
  | abort hs ih => rfl
  | setCur sid hs ih => exact ih
  | clearCur hs ih => exact ih
  | deleteSession sid hs ih =>
      simp only [remove_chat_session]
      split <;> exact ih

/-! ## Concrete environments used by counterexamples and witnesses -/

/-- An environment whose title-generation call fails. -/
def envTitleFail : GenEnv :=
  { titleResult := .error "boom", apiResult := .error "unsent",
    cancelPoint := none, outerWins := false }

/-- A fully successful environment: title `"t"`, two stream fragments, no
cancellation. -/
def envHappy : GenEnv :=
  { titleResult := .ok "t",
    apiResult := .ok [.data (some "A") false, .data (some "B") true],
    cancelPoint := none, outerWins := false }

/-- Mid-stream cancellation (after one consumed fragment) where the outer
`select` branch wins the race. -/
def envCancelOuter : GenEnv :=
  { titleResult := .ok "t",
    apiResult := .ok [.data (some "A") false, .data (some "B") true],
    cancelPoint := some 1, outerWins := true }

/-- Cancellation before any fragment is consumed, the inner loop's
cancellation branch winning the race. -/
def envCancelInner : GenEnv :=
  { titleResult := .ok "t",
    apiResult := .ok [.data (some "A") false, .data (some "B") true],
    cancelPoint := some 0, outerWins := false }

/-! ## Claims -/

/-- **C1, counterexample.**  The claim says every `generate_chat` return —
including the title-generation-failure exit — leaves `is_running = false`
and the token absent.  At the initial state (sentinel session) with a failed
title call, the `?` early return at the resolution step skips the reset
block: the call returns an error with `is_running` still `true` and the
token still installed. -/
theorem c1_counterexample :
    (process_chat_generation envTitleFail "hi" initState).result =
      .error "Failed to generate session title: boom" ∧
    (process_chat_generation envTitleFail "hi" initState).state.gs.is_running
      = true ∧
    (process_chat_generation envTitleFail "hi"
      initState).state.gs.cancellation_token = some () :=
  ⟨rfl, rfl, rfl⟩

/-- **C1, amended.**  When the call does not exit early — session resolution
succeeds and the resolved id is positive, so both message writes succeed —
the call always returns with `is_running = false` and the cancellation token
cleared, whether the generation result is success, error, or cancellation
(the stream/cancellation outcome `env` is arbitrary here). -/
theorem c1_reset_on_completion (env : GenEnv) (prompt : String)
    (s : AppState) (gs2 : GenerationState) (db1 : DB)
    (h1 : resolveSession env (startGeneration s.gs) s.db = .ok (gs2, db1))
    (h2 : 1 ≤ gs2.current_session_id.getD (-1)) :
    (process_chat_generation env prompt s).state.gs.is_running = false ∧
    (process_chat_generation env prompt s).state.gs.cancellation_token =
      none :=
  process_resets h1 h2

/-- Witness for `c1_reset_on_completion` at a concrete input. -/
theorem c1_witness :
    (process_chat_generation envHappy "hi" initState).state.gs.is_running
      = false ∧
    (process_chat_generation envHappy "hi"
      initState).state.gs.cancellation_token = none :=
  c1_reset_on_completion envHappy "hi" initState
    { is_running := true, current_session_id := some 1,
      cancellation_token := some () }
    { sessions := [{ id := 1, title := "t" }], history := [],
      nextSessionId := 2, nextMessageId := 1 }
    rfl (by decide)

/-- **C2, counterexample.**  The state reached from the initial state by one
`generate_chat` call whose title generation fails is reachable, has
`is_running = true`, and still carries the sentinel `-1` as current session
— violating the claimed invariant. -/
theorem c2_counterexample :
    Reachable (process_chat_generation envTitleFail "hi" initState).state ∧
    (process_chat_generation envTitleFail "hi" initState).state.gs.is_running
      = true ∧
    (process_chat_generation envTitleFail "hi"
      initState).state.gs.current_session_id = some (-1) :=
  ⟨Reachable.generate envTitleFail "hi" Reachable.init, rfl, rfl⟩

/-- **C2, amended.**  Restricted to traces in which every `generate_chat`
call reaches its reset block (no early error return), every reachable state
satisfies the invariant: either `is_running` is false, or the current
session id is a valid non-sentinel identifier.  (On such traces `is_running`
is in fact false at every command boundary; the unrestricted claim fails
because an early error exit leaves `is_running = true` with the sentinel
still current, as `c2_counterexample` shows.) -/
theorem c2_invariant_on_clean_traces (s : AppState)
    (h : ReachableClean s) :
    s.gs.is_running = false ∨
    (s.gs.current_session_id ≠ none ∧
     s.gs.current_session_id ≠ some (-1)) :=
  Or.inl (reachableClean_not_running h)

/-- Witness for `c2_invariant_on_clean_traces` at a concrete reachable
state. -/
theorem c2_witness :
    ReachableClean initState ∧
    (initState.gs.is_running = false ∨
     (initState.gs.current_session_id ≠ none ∧
      initState.gs.current_session_id ≠ some (-1))) :=
  ⟨ReachableClean.init,
   c2_invariant_on_clean_traces initState ReachableClean.init⟩

/-- The last element of a list extended by two elements. -/
theorem getLast?_append_pair {α : Type} (l : List α) (a b : α) :
    (l ++ [a, b]).getLast? = some b := by
  rw [show l ++ [a, b] = (l ++ [a]) ++ [b] by simp]
  exact List.getLast?_concat _

/-- **C3, counterexample.**  `tokio::select!` polls ready branches in
unspecified order; when the cancellation fires mid-stream, the outer
`cancelled()` branch can win, dropping the inner future before it appends
the marker.  With cancellation after one consumed fragment `"A"` and the
outer branch winning, the call returns `Ok("A")` — which does not end with
the cancellation marker — and persists `"A"`, refuting the claim that the
returned text always ends with the marker. -/
theorem c3_counterexample :
    (process_chat_generation envCancelOuter "hi" initState).result =
      .ok "A" ∧
    (¬ ∃ pre, "A" = pre ++ cancelMarker) ∧
    (process_chat_generation envCancelOuter "hi"
      initState).state.db.history.getLast? =
      some { id := 2, session_id := 1, role := "assistant",
             message := "A" } := by
  refine ⟨rfl, ?_, rfl⟩
  rintro ⟨pre, hp⟩
  have h := congrArg String.length hp
  rw [String.length_append] at h
  have h1 : ("A" : String).length = 1 := rfl
  have h2 : cancelMarker.length = 12 := rfl
  omega

/-- **C3, amended.**  When the cancellation is observed before the stream
loop terminates on its own AND the inner loop's cancellation branch wins the
race (`outerWins = false`), the call returns a success whose text is the
accumulated prefix followed by the cancellation marker, and the assistant
row persisted for that generation carries exactly that text; when the abort
arrives before any fragment (`k = 0`) the text is exactly the marker.  (If
the outer branch wins instead, the accumulated text is returned and
persisted without the marker — `c3_counterexample`.) -/
theorem c3_inner_cancel (env : GenEnv) (prompt : String) (s : AppState)
    (gs2 : GenerationState) (db1 : DB) (chunks : List Chunk) (k : Nat)
    (h1 : resolveSession env (startGeneration s.gs) s.db = .ok (gs2, db1))
    (h2 : 1 ≤ gs2.current_session_id.getD (-1))
    (ha : env.apiResult = .ok chunks)
    (hc : env.cancelPoint = some k)
    (ho : env.outerWins = false)
    (hk : k < (streamRun "" chunks).2.2) :
    (process_chat_generation env prompt s).result =
      .ok ((streamRun "" (chunks.take k)).1 ++ cancelMarker) ∧
    (process_chat_generation env prompt s).state.db.history.getLast? =
      some { id := db1.nextMessageId + 1,
             session_id := gs2.current_session_id.getD (-1),
             role := "assistant",
             message := (streamRun "" (chunks.take k)).1 ++ cancelMarker } ∧
    (k = 0 →
      (streamRun "" (chunks.take k)).1 ++ cancelMarker = cancelMarker) := by
  have hno : ¬ (streamRun "" chunks).2.2 ≤ k := by omega
  have hrun : runChatStream env =
      ((streamRun "" (chunks.take k)).1 ++ cancelMarker, .ok ()) := by
    simp only [runChatStream, ha, hc, ho, if_neg hno, Bool.false_eq_true,
      if_false]
  rw [process_complete h1 h2, hrun]
  refine ⟨rfl, ?_, fun hk0 => by subst hk0; rfl⟩
  exact getLast?_append_pair _ _ _

/-- Witness for `c3_inner_cancel`: cancellation before any fragment, inner
branch winning — the stored assistant message is exactly the marker. -/
theorem c3_witness :
    (process_chat_generation envCancelInner "hi" initState).result =
      .ok cancelMarker ∧
    (process_chat_generation envCancelInner "hi"
      initState).state.db.history.getLast? =
      some { id := 2, session_id := 1, role := "assistant",
             message := cancelMarker } := by
  have h := c3_inner_cancel envCancelInner "hi" initState
    { is_running := true, current_session_id := some 1,
      cancellation_token := some () }
    { sessions := [{ id := 1, title := "t" }], history := [],
      nextSessionId := 2, nextMessageId := 1 }
    [.data (some "A") false, .data (some "B") true] 0
    rfl (by decide) rfl rfl rfl (by decide)
  obtain ⟨ha, hb, hc⟩ := h
  rw [hc rfl] at ha hb
  exact ⟨ha, hb⟩

/-- **C4.**  Within a single `generate_chat` call, every assistant-message
write is preceded (in the call's persistence trace) by the user-message
write of the same generation against the same session id; and whenever the
user message was written at all, it is present in the final database — even
when the call afterwards returns an error — so a failure after the
user-message write never loses the user's turn. -/
theorem c4_user_persisted_first (env : GenEnv) (prompt : String)
    (s : AppState) :
    (∀ sid m, PersistEvent.saveAssistant sid m ∈
        (process_chat_generation env prompt s).events →
      ∃ i j, i < j ∧
        (process_chat_generation env prompt s).events.get? i =
          some (.saveUser sid prompt) ∧
        (process_chat_generation env prompt s).events.get? j =
          some (.saveAssistant sid m)) ∧
    (∀ sid m, PersistEvent.saveUser sid m ∈
        (process_chat_generation env prompt s).events →
      ∃ row, row ∈ (process_chat_generation env prompt s).state.db.history ∧
        row.session_id = sid ∧ row.role = "user" ∧ row.message = m) := by
  rcases process_cases env prompt s with ⟨e, heq⟩ | ⟨gs2, db1, hres, hrest⟩
  · rw [heq]
    exact ⟨fun sid m hm => absurd hm (List.not_mem_nil _),
           fun sid m hm => absurd hm (List.not_mem_nil _)⟩
  · rcases hrest with ⟨hsid, e, heq⟩ | hsid
    · rw [heq]
      exact ⟨fun sid m hm => absurd hm (List.not_mem_nil _),
             fun sid m hm => absurd hm (List.not_mem_nil _)⟩
    · rw [process_complete hres hsid]
      constructor
      · intro sid m hm
        rcases List.mem_cons.mp hm with hm | hm
        · exact PersistEvent.noConfusion hm
        · rcases List.mem_cons.mp hm with hm | hm
          · injection hm with hs' hm'
            subst hs'; subst hm'
            exact ⟨0, 1, Nat.zero_lt_one, rfl, rfl⟩
          · exact absurd hm (List.not_mem_nil _)
      · intro sid m hm
        rcases List.mem_cons.mp hm with hm | hm
        · injection hm with hs' hm'
          subst hs'; subst hm'
          exact ⟨{ id := db1.nextMessageId,
                   session_id := gs2.current_session_id.getD (-1),
                   role := "user", message := m },
                 List.mem_append_right _ (List.mem_cons_self _ _),
                 rfl, rfl, rfl⟩
        · rcases List.mem_cons.mp hm with hm | hm
          · exact PersistEvent.noConfusion hm
          · exact absurd hm (List.not_mem_nil _)

/-- Witness for `c4_user_persisted_first` at a concrete input: in the happy
run from the initial state, the user write is at index 0 and the assistant
write at index 1. -/
theorem c4_witness :
    ∃ i j, i < j ∧
      (process_chat_generation envHappy "hi" initState).events.get? i =
        some (.saveUser 1 "hi") ∧
      (process_chat_generation envHappy "hi" initState).events.get? j =
        some (.saveAssistant 1 "AB") :=
  (c4_user_persisted_first envHappy "hi" initState).1 1 "AB" (by decide)

/-- **C5.**  `get_or_create_session` is idempotent on exact title match: a
second call with the same title returns the same id and leaves the database
unchanged; the first call either returns an existing session's id without
inserting, or inserts exactly one new row and returns its id. -/
theorem c5_get_or_create_idempotent (db : DB) (title : String) :
    (get_or_create_session (get_or_create_session db title).2 title).1 =
      (get_or_create_session db title).1 ∧
    (get_or_create_session (get_or_create_session db title).2 title).2 =
      (get_or_create_session db title).2 ∧
    (match db.sessions.find? (fun r => r.title == title) with
     | some r =>
        (get_or_create_session db title).1 = r.id ∧
        (get_or_create_session db title).2 = db
     | none =>
        (get_or_create_session db title).2.sessions =
          db.sessions ++ [{ id := db.nextSessionId, title := title }] ∧
        (get_or_create_session db title).1 = db.nextSessionId) := by
  cases hf : db.sessions.find? (fun r => r.title == title) with
  | some r =>
      simp [get_or_create_session, hf]
  | none =>
      have hf2 : ((db.sessions ++
            [({ id := db.nextSessionId, title := title } : ChatSessionRow)]).find?
          (fun r => r.title == title)) =
          some { id := db.nextSessionId, title := title } := by
        rw [List.find?_append, hf]
        simp [List.find?]
      simp [get_or_create_session, hf, hf2]

/-- **C6.**  In every reachable state whose current session is the sentinel
`-1` or absent, loading the chat history returns an empty sequence; this
rests on `save_chat_message` returning an error (and writing nothing) for
any session id `≤ 0`, so no stored row can carry the sentinel id. -/
theorem c6_sentinel_history_empty (s : AppState) (h : Reachable s)
    (hcur : s.gs.current_session_id = some (-1) ∨
            s.gs.current_session_id = none) :
    load_chat_history s = .ok [] ∧
    ∀ (sid : Int) (role msg : String) (db : DB), sid ≤ 0 →
      save_chat_message sid role msg db =
        .error "No active chat session found." := by
  constructor
  · have hsid : s.gs.current_session_id.getD (-1) = -1 := by
      rcases hcur with h2 | h2 <;> rw [h2] <;> rfl
    simp only [load_chat_history, fetch_chat_history, hsid, Except.ok.injEq]
    rw [List.filter_eq_nil_iff]
    intro m hm
    have hpos := reachable_history_pos h m hm
    simp only [beq_iff_eq]
    omega
  · intro sid role msg db hsid
    unfold save_chat_message
    rw [if_pos hsid]

/-- Witness for `c6_sentinel_history_empty` at the initial state (current
session is the sentinel) and at a concrete rejected write. -/
theorem c6_witness :
    Reachable initState ∧
    load_chat_history initState = .ok [] ∧
    save_chat_message (-3) "user" "x" DB.empty =
      .error "No active chat session found." :=
  ⟨Reachable.init,
   (c6_sentinel_history_empty initState Reachable.init (Or.inl rfl)).1,
   (c6_sentinel_history_empty initState Reachable.init (Or.inl rfl)).2
     (-3) "user" "x" DB.empty (by decide)⟩

/-- **C7.**  `delete_chat_session` removes every session row with the given
id and keeps every other row; it resets `current_session_id` to the
sentinel exactly when the deleted id was current, and leaves
`current_session_id` (otherwise), `is_running`, the cancellation token and
the chat history unchanged. -/
theorem c7_delete_session (session_id : Int) (s : AppState) :
    (∀ r ∈ (remove_chat_session session_id s).db.sessions,
       r.id ≠ session_id) ∧
    (∀ r ∈ s.db.sessions, r.id ≠ session_id →
       r ∈ (remove_chat_session session_id s).db.sessions) ∧
    (remove_chat_session session_id s).gs.current_session_id =
      (if s.gs.current_session_id = some session_id then some (-1)
       else s.gs.current_session_id) ∧
    (remove_chat_session session_id s).gs.is_running = s.gs.is_running ∧
    (remove_chat_session session_id s).gs.cancellation_token =
      s.gs.cancellation_token ∧
    (remove_chat_session session_id s).db.history = s.db.history := by
  refine ⟨?_, ?_, ?_, ?_, ?_, rfl⟩
  · intro r hr
    simp only [remove_chat_session, DB.deleteSession, List.mem_filter] at hr
    simpa using hr.2
  · intro r hr hne
    simp only [remove_chat_session, DB.deleteSession, List.mem_filter]
    exact ⟨hr, by simpa using hne⟩
  · simp only [remove_chat_session]
    split <;> rfl
  · simp only [remove_chat_session]
    split <;> rfl
  · simp only [remove_chat_session]
    split <;> rfl

/-- A concrete state with two stored sessions, the first one current. -/
def stateTwoSessions : AppState :=
  { gs := { is_running := false, current_session_id := some 1,
            cancellation_token := none }
    db := { sessions := [{ id := 1, title := "a" }, { id := 2, title := "b" }],
            history := [], nextSessionId := 3, nextMessageId := 1 } }

/-- Witness for `c7_delete_session`: deleting the selected session 1 keeps
session 2 and resets the current-session pointer. -/
theorem c7_witness :
    ({ id := 2, title := "b" } : ChatSessionRow) ∈
      (remove_chat_session 1 stateTwoSessions).db.sessions ∧
    (remove_chat_session 1 stateTwoSessions).gs.current_session_id =
      (if stateTwoSessions.gs.current_session_id = some 1 then some (-1)
       else stateTwoSessions.gs.current_session_id) :=
  ⟨(c7_delete_session 1 stateTwoSessions).2.1 { id := 2, title := "b" }
     (by decide) (by decide),
   (c7_delete_session 1 stateTwoSessions).2.2.1⟩

/-- **C8.**  `abort_generation` with no generation in flight (no token, not
running) returns success and leaves the state exactly unchanged; and for any
state, running it twice produces the same final state and result as running
it once. -/
theorem c8_abort_idempotent_noop (gs : GenerationState)
    (h1 : gs.cancellation_token = none) (h2 : gs.is_running = false) :
    abort_generation gs = (.ok (), gs) ∧
    ∀ gs2 : GenerationState,
      abort_generation (abort_generation gs2).2 =
        (.ok (), (abort_generation gs2).2) := by
  constructor
  · cases gs with
    | mk run cur tok =>
        subst h1; subst h2
        rfl
  · intro gs2; rfl

/-- Witness for `c8_abort_idempotent_noop` at the default state. -/
theorem c8_witness :
    abort_generation GenerationState.default =
      (.ok (), GenerationState.default) :=
  (c8_abort_idempotent_noop GenerationState.default rfl rfl).1

/-- **C9.**  The default state holds `Some(-1)`, and in every reachable
state `current_session_id` is never `None`: all writers store `Some(_)`, so
the sentinel is the only runtime representation of "no active session". -/
theorem c9_session_never_none (s : AppState) (h : Reachable s) :
    s.gs.current_session_id ≠ none ∧
    initState.gs.current_session_id = some (-1) := by
  refine ⟨?_, rfl⟩
  induction h with
  | init => simp [initState, GenerationState.default]
  | generate env prompt hs ih => exact process_session_ne_none ih
  | abort hs ih => exact ih
  | setCur sid hs ih => simp [set_current_session]
  | clearCur hs ih => simp [clear_current_session]
  | deleteSession sid hs ih =>
      simp only [remove_chat_session]
      split
      · simp
      · exact ih

/-- Witness for `c9_session_never_none` at the initial state. -/
theorem c9_witness :
    Reachable initState ∧ initState.gs.current_session_id ≠ none :=
  ⟨Reachable.init, (c9_session_never_none initState Reachable.init).1⟩

/-- **C10.**  When the current session id is present and non-sentinel but no
stored session row carries it, `fetch_current_session` still succeeds,
returning that id paired with the empty title. -/
theorem c10_missing_row_empty_title (s : AppState) (id : Int)
    (h1 : s.gs.current_session_id = some id) (h2 : id ≠ -1)
    (h3 : ∀ r ∈ s.db.sessions, r.id ≠ id) :
    fetch_current_session s = .ok { id := id, title := "" } := by
  have hf : s.db.sessions.find? (fun r => r.id == id) = none := by
    rw [List.find?_eq_none]
    intro r hr
    simpa using h3 r hr
  simp [fetch_current_session, h1, if_pos h2, hf]

/-- The state after `set_current_session(5)` on the fresh application: no
session row with id 5 exists. -/
def stateSetFive : AppState :=
  { gs := set_current_session 5 GenerationState.default, db := DB.empty }

/-- Witness for `c10_missing_row_empty_title` after selecting the absent
session id 5. -/
theorem c10_witness :
    fetch_current_session stateSetFive = .ok { id := 5, title := "" } :=
  c10_missing_row_empty_title stateSetFive 5 rfl (by decide)
    (by intro r hr; simp [stateSetFive, DB.empty] at hr)

end OllamaChat
